import Mathlib

/-!
# Pangohack: environment-backed path accessors

A shallow embedding of `mac/pangohack.c`.  The file defines two C functions,
`pango_get_sysconf_subdirectory` and `pango_get_lib_subdirectory`.  Each reads one
environment variable with `getenv`, falls back to a string literal when the returned
pointer is null, prints one `fprintf (stderr, ...)` message and returns the pointer.

The process state touched by the code is made explicit: the environment block and the
bytes written to standard error so far.  C strings are `String`s, a nullable
`char *` is an `Option String`.
-/

namespace Pangohack

/-- The part of the process state the two functions can observe or change: the
environment block (`NAME=value` entries, in order) and everything written to the
standard error stream so far. -/
structure Process where
  /-- The entries of the environment block, split at the first `=`. -/
  environ : List (String × String)
  /-- The contents of the standard error stream. -/
  stderr : String
  deriving DecidableEq, Repr

/-- C library `getenv`: scan the environment block front to back and return the value
of the first entry whose name is `name`; the null pointer (`none`) when there is no
such entry. -/
def getenv : List (String × String) → String → Option String
  | [], _ => none
  | (n, v) :: rest, name => if n = name then some v else getenv rest name

/-- What `printf` prints for a `%s` conversion: the characters of the string the
argument points to.  A null argument is outside the C standard; the usual C libraries
print `(null)`. -/
def showS : Option String → List Char
  | some s => s.data
  | none => "(null)".data

/-- The fragment of `printf` formatting used by the source: ordinary characters are
copied, `%s` consumes the next argument and prints it, `%%` prints a percent sign. -/
def vformat : List Char → List (Option String) → List Char
  | [], _ => []
  | [c], _ => [c]
  | c :: d :: rest, args =>
    if c = '%' then
      if d = 's' then
        match args with
        | a :: more => showS a ++ vformat rest more
        | [] => vformat rest []
      else if d = '%' then '%' :: vformat rest args
      else c :: vformat (d :: rest) args
    else c :: vformat (d :: rest) args

/-- The call `fprintf (stderr, fmt, args...)`: the formatted text is appended to the
standard error stream, nothing else changes. -/
def fprintf_stderr (st : Process) (fmt : String) (args : List (Option String)) : Process :=
  { st with stderr := st.stderr ++ String.mk (vformat fmt.data args) }

/-- Embedding of `pango_get_sysconf_subdirectory`: returns the pointer `d` together with
the process state after the call. -/
def pango_get_sysconf_subdirectory (st : Process) : Option String × Process :=
  let d := getenv st.environ "PANGO_SYSCONF_DIR"
  let d := if d.isNone then some "/etc/pango32" else d
  let st := fprintf_stderr st "Pangohack: using sysconf dir %s\n" [d]
  (d, st)

/-- Embedding of `pango_get_lib_subdirectory`: returns the pointer `d` together with the
process state after the call. -/
def pango_get_lib_subdirectory (st : Process) : Option String × Process :=
  let d := getenv st.environ "PANGO_LIB_DIR"
  let d := if d.isNone then some "/usr/lib32/pango" else d
  let st := fprintf_stderr st "Pangohack: using lib dir %s\n" [d]
  (d, st)

/-- The two accessors exported by the library. -/
inductive Accessor where
  | sysconf
  | lib
  deriving DecidableEq, Repr

/-- One call to the named accessor. -/
def Accessor.call : Accessor → Process → Option String × Process
  | .sysconf, st => pango_get_sysconf_subdirectory st
  | .lib, st => pango_get_lib_subdirectory st

/-- A client making the given calls one after the other, with nothing else touching the
process in between: the state is threaded through, and every call is recorded with the
value it returned. -/
def callSeq : List Accessor → Process → List (Accessor × Option String) × Process
  | [], st => ([], st)
  | a :: rest, st =>
    let out := a.call st
    let tail := callSeq rest out.2
    ((a, out.1) :: tail.1, tail.2)

/-- The line-feed character. -/
def newline : Char := '\n'

/-- The property "`t` is exactly one line of text that mentions `r`": `t` holds exactly one
line feed, that line feed is its last character, and `r` occurs in `t`. -/
def OneLineWith (t r : String) : Prop :=
  t.data.count newline = 1 ∧ t.data.getLast? = some newline ∧ r.data <:+: t.data

/-! ## Auxiliary facts -/

theorem getenv_eq_none_iff (env : List (String × String)) (name : String) :
    getenv env name = none ↔ ∀ e ∈ env, e.1 ≠ name := by
  induction env with
  | nil => simp [getenv]
  | cons e rest ih =>
    obtain ⟨n, v⟩ := e
    by_cases h : n = name
    · simp [getenv, h]
    · simp [getenv, h, ih]

theorem vformat_sysconf (d : Option String) :
    vformat "Pangohack: using sysconf dir %s\n".data [d]
      = "Pangohack: using sysconf dir ".data ++ (showS d ++ "\n".data) := by
  simp [vformat]

theorem vformat_lib (d : Option String) :
    vformat "Pangohack: using lib dir %s\n".data [d]
      = "Pangohack: using lib dir ".data ++ (showS d ++ "\n".data) := by
  simp [vformat]

theorem sysconf_result (st : Process) :
    (pango_get_sysconf_subdirectory st).1
      = some ((getenv st.environ "PANGO_SYSCONF_DIR").getD "/etc/pango32") := by
  unfold pango_get_sysconf_subdirectory
  cases getenv st.environ "PANGO_SYSCONF_DIR" <;> simp

theorem lib_result (st : Process) :
    (pango_get_lib_subdirectory st).1
      = some ((getenv st.environ "PANGO_LIB_DIR").getD "/usr/lib32/pango") := by
  unfold pango_get_lib_subdirectory
  cases getenv st.environ "PANGO_LIB_DIR" <;> simp

theorem sysconf_stderr (st : Process) :
    (pango_get_sysconf_subdirectory st).2.stderr
      = st.stderr ++ ("Pangohack: using sysconf dir "
          ++ (getenv st.environ "PANGO_SYSCONF_DIR").getD "/etc/pango32" ++ "\n") := by
  unfold pango_get_sysconf_subdirectory fprintf_stderr
  apply String.ext
  cases getenv st.environ "PANGO_SYSCONF_DIR" <;>
    simp [vformat, showS, String.data_append]

theorem lib_stderr (st : Process) :
    (pango_get_lib_subdirectory st).2.stderr
      = st.stderr ++ ("Pangohack: using lib dir "
          ++ (getenv st.environ "PANGO_LIB_DIR").getD "/usr/lib32/pango" ++ "\n") := by
  unfold pango_get_lib_subdirectory fprintf_stderr
  apply String.ext
  cases getenv st.environ "PANGO_LIB_DIR" <;>
    simp [vformat, showS, String.data_append]

theorem sysconf_environ (st : Process) :
    (pango_get_sysconf_subdirectory st).2.environ = st.environ := rfl

theorem lib_environ (st : Process) :
    (pango_get_lib_subdirectory st).2.environ = st.environ := rfl

theorem call_environ (a : Accessor) (st : Process) : (a.call st).2.environ = st.environ := by
  cases a <;> rfl

theorem call_result_of_environ (a : Accessor) (st st2 : Process)
    (h : st.environ = st2.environ) : (a.call st).1 = (a.call st2).1 := by
  cases a
  · show (pango_get_sysconf_subdirectory st).1 = (pango_get_sysconf_subdirectory st2).1
    rw [sysconf_result, sysconf_result, h]
  · show (pango_get_lib_subdirectory st).1 = (pango_get_lib_subdirectory st2).1
    rw [lib_result, lib_result, h]

theorem callSeq_calls (calls : List Accessor) (st : Process) :
    (callSeq calls st).1.map Prod.fst = calls := by
  induction calls generalizing st with
  | nil => rfl
  | cons a rest ih => simp [callSeq, ih]

theorem callSeq_environ (calls : List Accessor) (st : Process) :
    (callSeq calls st).2.environ = st.environ := by
  induction calls generalizing st with
  | nil => rfl
  | cons a rest ih =>
    show (callSeq rest (a.call st).2).2.environ = st.environ
    rw [ih, call_environ]

theorem callSeq_results (calls : List Accessor) (st : Process) :
    ∀ e ∈ (callSeq calls st).1, e.2 = (e.1.call st).1 := by
  induction calls generalizing st with
  | nil => intro e he; simp [callSeq] at he
  | cons a rest ih =>
    intro e he
    have he2 : e = (a, (a.call st).1) ∨ e ∈ (callSeq rest (a.call st).2).1 := by
      simpa [callSeq] using he
    rcases he2 with rfl | hmem
    · rfl
    · rw [ih _ e hmem]
      exact call_result_of_environ _ _ _ (call_environ a st)

/-! ## The return value -/

/-- C1: in every process state whose environment has `PANGO_SYSCONF_DIR` set to `v`
(the lookup of that name yields `v`, the empty string included),
`pango_get_sysconf_subdirectory` returns exactly `v`. -/
theorem sysconf_returns_env_value (st : Process) (v : String)
    (h : getenv st.environ "PANGO_SYSCONF_DIR" = some v) :
    (pango_get_sysconf_subdirectory st).1 = some v := by
  rw [sysconf_result, h]; rfl

/-- Scenario 1 of C1, and the empty value: the theorem applied to an environment with
`PANGO_SYSCONF_DIR=/opt/cfg`. -/
theorem sysconf_returns_env_value_witness :
    getenv [("HOME", "/root"), ("PANGO_SYSCONF_DIR", "/opt/cfg")] "PANGO_SYSCONF_DIR"
        = some "/opt/cfg"
      ∧ (pango_get_sysconf_subdirectory
          ⟨[("HOME", "/root"), ("PANGO_SYSCONF_DIR", "/opt/cfg")], ""⟩).1 = some "/opt/cfg" :=
  ⟨by decide,
    sysconf_returns_env_value ⟨[("HOME", "/root"), ("PANGO_SYSCONF_DIR", "/opt/cfg")], ""⟩
      "/opt/cfg" (by decide)⟩

/-- C2: in every process state whose environment has no entry named `PANGO_SYSCONF_DIR`
(whatever other entries it has), `pango_get_sysconf_subdirectory` returns exactly
`/etc/pango32`. -/
theorem sysconf_returns_default (st : Process)
    (h : ∀ e ∈ st.environ, e.1 ≠ "PANGO_SYSCONF_DIR") :
    (pango_get_sysconf_subdirectory st).1 = some "/etc/pango32" := by
  rw [sysconf_result, (getenv_eq_none_iff _ _).2 h]; rfl

/-- Scenario 2 of C2: the theorem applied to an environment that sets other variables
only. -/
theorem sysconf_returns_default_witness :
    (∀ e ∈ [("HOME", "/root"), ("PANGO_LIB_DIR", "/opt/lib")],
        e.1 ≠ "PANGO_SYSCONF_DIR")
      ∧ (pango_get_sysconf_subdirectory
          ⟨[("HOME", "/root"), ("PANGO_LIB_DIR", "/opt/lib")], ""⟩).1 = some "/etc/pango32" :=
  ⟨by decide,
    sysconf_returns_default ⟨[("HOME", "/root"), ("PANGO_LIB_DIR", "/opt/lib")], ""⟩
      (by decide)⟩

/-- C3: in every process state whose environment has `PANGO_LIB_DIR` set to `v`,
`pango_get_lib_subdirectory` returns exactly `v`; when `v` is the empty string the
result is the empty string and not the default `/usr/lib32/pango`. -/
theorem lib_returns_env_value (st : Process) (v : String)
    (h : getenv st.environ "PANGO_LIB_DIR" = some v) :
    (pango_get_lib_subdirectory st).1 = some v
      ∧ (v = "" → (pango_get_lib_subdirectory st).1 = some ""
            ∧ (pango_get_lib_subdirectory st).1 ≠ some "/usr/lib32/pango") := by
  have hr : (pango_get_lib_subdirectory st).1 = some v := by
    rw [lib_result, h]; rfl
  refine ⟨hr, fun hv => ?_⟩
  subst hv
  rw [hr]
  exact ⟨rfl, by decide⟩

/-- Scenario 3 of C3: the theorem applied to an environment with `PANGO_LIB_DIR` present
and empty. -/
theorem lib_returns_env_value_witness :
    getenv [("PANGO_LIB_DIR", "")] "PANGO_LIB_DIR" = some ""
      ∧ (pango_get_lib_subdirectory ⟨[("PANGO_LIB_DIR", "")], ""⟩).1 = some ""
      ∧ (pango_get_lib_subdirectory ⟨[("PANGO_LIB_DIR", "")], ""⟩).1
          ≠ some "/usr/lib32/pango" :=
  ⟨by decide,
    (lib_returns_env_value ⟨[("PANGO_LIB_DIR", "")], ""⟩ "" (by decide)).2 rfl⟩

/-- C4: in every process state whose environment has no entry named `PANGO_LIB_DIR`
(whatever other entries it has), `pango_get_lib_subdirectory` returns exactly
`/usr/lib32/pango`. -/
theorem lib_returns_default (st : Process)
    (h : ∀ e ∈ st.environ, e.1 ≠ "PANGO_LIB_DIR") :
    (pango_get_lib_subdirectory st).1 = some "/usr/lib32/pango" := by
  rw [lib_result, (getenv_eq_none_iff _ _).2 h]; rfl

/-- Scenario 2 of C4: the theorem applied to an environment that sets other variables
only. -/
theorem lib_returns_default_witness :
    (∀ e ∈ [("PANGO_SYSCONF_DIR", "/opt/cfg"), ("PATH", "/bin")],
        e.1 ≠ "PANGO_LIB_DIR")
      ∧ (pango_get_lib_subdirectory
          ⟨[("PANGO_SYSCONF_DIR", "/opt/cfg"), ("PATH", "/bin")], ""⟩).1
          = some "/usr/lib32/pango" :=
  ⟨by decide,
    lib_returns_default ⟨[("PANGO_SYSCONF_DIR", "/opt/cfg"), ("PATH", "/bin")], ""⟩
      (by decide)⟩

/-- C9: neither accessor ever returns the null pointer: in every process state both calls
return some path string, and when the variable is absent that string is the accessor's
default. -/
theorem accessors_never_null (st : Process) :
    (∃ s, (pango_get_sysconf_subdirectory st).1 = some s)
      ∧ (∃ s, (pango_get_lib_subdirectory st).1 = some s)
      ∧ (getenv st.environ "PANGO_SYSCONF_DIR" = none →
          (pango_get_sysconf_subdirectory st).1 = some "/etc/pango32")
      ∧ (getenv st.environ "PANGO_LIB_DIR" = none →
          (pango_get_lib_subdirectory st).1 = some "/usr/lib32/pango") := by
  refine ⟨⟨_, sysconf_result st⟩, ⟨_, lib_result st⟩, fun h => ?_, fun h => ?_⟩
  · rw [sysconf_result, h]; rfl
  · rw [lib_result, h]; rfl

/-- C9 at the empty environment: both variables are absent and both defaults come
back. -/
theorem accessors_never_null_witness :
    getenv [] "PANGO_SYSCONF_DIR" = none ∧ getenv [] "PANGO_LIB_DIR" = none
      ∧ (pango_get_sysconf_subdirectory ⟨[], ""⟩).1 = some "/etc/pango32"
      ∧ (pango_get_lib_subdirectory ⟨[], ""⟩).1 = some "/usr/lib32/pango" :=
  ⟨rfl, rfl, (accessors_never_null ⟨[], ""⟩).2.2.1 rfl,
    (accessors_never_null ⟨[], ""⟩).2.2.2 rfl⟩

/-! ## The diagnostic -/

/-- Facts about a message built as `label ++ r ++ "\n"` from a label without a line feed:
it ends in a line feed, mentions `r`, and has one line feed more than `r`. -/
theorem message_shape (label r : String) (hl : label.data.count newline = 0) :
    (label ++ r ++ "\n").data.getLast? = some newline
      ∧ r.data <:+: (label ++ r ++ "\n").data
      ∧ (label ++ r ++ "\n").data.count newline = r.data.count newline + 1 := by
  have hn : ("\n" : String).data = [newline] := rfl
  refine ⟨?_, ?_, ?_⟩
  · rw [String.data_append, hn]
    exact List.getLast?_concat _
  · rw [String.data_append, String.data_append]
    exact List.infix_append _ _ _
  · rw [String.data_append, String.data_append, hn, List.count_append, List.count_append,
      hl]
    simp

/-- C6: the text a call appends to standard error is `Pangohack: using sysconf dir `
(resp. `Pangohack: using lib dir `) followed by the very string the call returns and a
line feed. -/
theorem diagnostic_text (st : Process) :
    (∃ r, (pango_get_sysconf_subdirectory st).1 = some r
        ∧ (pango_get_sysconf_subdirectory st).2.stderr
            = st.stderr ++ ("Pangohack: using sysconf dir " ++ r ++ "\n"))
      ∧ (∃ r, (pango_get_lib_subdirectory st).1 = some r
        ∧ (pango_get_lib_subdirectory st).2.stderr
            = st.stderr ++ ("Pangohack: using lib dir " ++ r ++ "\n")) :=
  ⟨⟨_, sysconf_result st, sysconf_stderr st⟩, ⟨_, lib_result st, lib_stderr st⟩⟩

/-- C5, as stated, fails: with `PANGO_LIB_DIR` set to a value holding a line feed, the call
writes `Pangohack: using lib dir /opt` and `/lib` on two lines, so the appended text is
not one line with a single, final line feed. -/
theorem diagnostic_two_lines :
    (pango_get_lib_subdirectory ⟨[("PANGO_LIB_DIR", "/opt\n/lib")], ""⟩).2.stderr
        = "Pangohack: using lib dir /opt\n/lib\n"
      ∧ ¬ ∃ r t,
          (pango_get_lib_subdirectory ⟨[("PANGO_LIB_DIR", "/opt\n/lib")], ""⟩).1 = some r
            ∧ (pango_get_lib_subdirectory ⟨[("PANGO_LIB_DIR", "/opt\n/lib")], ""⟩).2.stderr
                = "" ++ t
            ∧ OneLineWith t r := by
  have hout : (pango_get_lib_subdirectory ⟨[("PANGO_LIB_DIR", "/opt\n/lib")], ""⟩).2.stderr
      = "Pangohack: using lib dir /opt\n/lib\n" := by decide
  refine ⟨hout, ?_⟩
  rintro ⟨r, t, -, ht, hcount, -⟩
  rw [hout, String.empty_append] at ht
  subst ht
  revert hcount
  decide

/-- C5, amended: every call to either accessor appends to standard error a text that ends
in a line feed and contains the returned path; the text holds one line feed more than
the path does, so it is exactly one line whenever the path holds no line feed (as both
defaults do). -/
theorem diagnostic_line (st : Process) :
    (∃ r t, (pango_get_sysconf_subdirectory st).1 = some r
        ∧ (pango_get_sysconf_subdirectory st).2.stderr = st.stderr ++ t
        ∧ t.data.getLast? = some newline
        ∧ r.data <:+: t.data
        ∧ t.data.count newline = r.data.count newline + 1
        ∧ (newline ∉ r.data → OneLineWith t r))
      ∧ (∃ r t, (pango_get_lib_subdirectory st).1 = some r
        ∧ (pango_get_lib_subdirectory st).2.stderr = st.stderr ++ t
        ∧ t.data.getLast? = some newline
        ∧ r.data <:+: t.data
        ∧ t.data.count newline = r.data.count newline + 1
        ∧ (newline ∉ r.data → OneLineWith t r)) := by
  constructor
  · obtain ⟨h1, h2, h3⟩ := message_shape "Pangohack: using sysconf dir "
      ((getenv st.environ "PANGO_SYSCONF_DIR").getD "/etc/pango32") (by decide)
    refine ⟨_, _, sysconf_result st, sysconf_stderr st, h1, h2, h3, fun hr => ⟨?_, h1, h2⟩⟩
    rw [h3, List.count_eq_zero_of_not_mem hr]
  · obtain ⟨h1, h2, h3⟩ := message_shape "Pangohack: using lib dir "
      ((getenv st.environ "PANGO_LIB_DIR").getD "/usr/lib32/pango") (by decide)
    refine ⟨_, _, lib_result st, lib_stderr st, h1, h2, h3, fun hr => ⟨?_, h1, h2⟩⟩
    rw [h3, List.count_eq_zero_of_not_mem hr]

/-- C5 amended, at the empty environment: the default path holds no line feed and the text
written by `pango_get_sysconf_subdirectory` is exactly one line mentioning it. -/
theorem diagnostic_line_witness :
    newline ∉ "/etc/pango32".data
      ∧ OneLineWith "Pangohack: using sysconf dir /etc/pango32\n" "/etc/pango32" := by
  obtain ⟨r, t, hr, ht, -, -, -, himp⟩ := (diagnostic_line ⟨[], ""⟩).1
  have hr2 : r = "/etc/pango32" := (Option.some.inj hr).symm
  have ht2 : t = "Pangohack: using sysconf dir /etc/pango32\n" := by
    rw [String.empty_append] at ht
    exact ht.symm
  subst hr2 ht2
  exact ⟨by decide, himp (by decide)⟩

/-! ## Effects on the process state -/

/-- C8: a call to either accessor leaves the environment block exactly as it was, and the
standard error contents before the call are a prefix of the contents after it. -/
theorem accessors_frame (st : Process) :
    (pango_get_sysconf_subdirectory st).2.environ = st.environ
      ∧ st.stderr.data <+: (pango_get_sysconf_subdirectory st).2.stderr.data
      ∧ (pango_get_lib_subdirectory st).2.environ = st.environ
      ∧ st.stderr.data <+: (pango_get_lib_subdirectory st).2.stderr.data := by
  refine ⟨rfl, ?_, rfl, ?_⟩
  · rw [sysconf_stderr, String.data_append]
    exact ⟨_, rfl⟩
  · rw [lib_stderr, String.data_append]
    exact ⟨_, rfl⟩

/-- C7: for every process state and every finite sequence of calls to the two accessors,
the recorded calls are the ones made, each returns what that accessor returns in the
initial state, every call returns the same value as the first call to the same accessor,
and the environment is the same at the end. -/
theorem repeated_calls_stable (st : Process) (calls : List Accessor) :
    (callSeq calls st).1.map Prod.fst = calls
      ∧ (∀ e ∈ (callSeq calls st).1, e.2 = (e.1.call st).1)
      ∧ (∀ a first, (callSeq calls st).1.find? (fun e => decide (e.1 = a)) = some first →
          ∀ e ∈ (callSeq calls st).1, e.1 = a → e.2 = first.2)
      ∧ (callSeq calls st).2.environ = st.environ := by
  refine ⟨callSeq_calls calls st, callSeq_results calls st, ?_, callSeq_environ calls st⟩
  intro a first hfirst e he hea
  have hmem := List.mem_of_find?_eq_some hfirst
  have hfa : first.1 = a := by simpa using List.find?_some hfirst
  rw [callSeq_results calls st e he, callSeq_results calls st first hmem, hea, hfa]

/-- C7 on a concrete run: in the sequence sysconf, lib, sysconf, lib the first call to
`pango_get_lib_subdirectory` returns `/opt/lib`, and so does the last call. -/
theorem repeated_calls_stable_witness :
    (callSeq [.sysconf, .lib, .sysconf, .lib] ⟨[("PANGO_LIB_DIR", "/opt/lib")], ""⟩).1.find?
        (fun e => decide (e.1 = Accessor.lib)) = some (Accessor.lib, some "/opt/lib")
      ∧ (Accessor.lib, (Accessor.lib.call ⟨[("PANGO_LIB_DIR", "/opt/lib")], ""⟩).1)
          ∈ (callSeq [.sysconf, .lib, .sysconf, .lib] ⟨[("PANGO_LIB_DIR", "/opt/lib")], ""⟩).1
      ∧ (Accessor.lib.call ⟨[("PANGO_LIB_DIR", "/opt/lib")], ""⟩).1 = some "/opt/lib" :=
  ⟨by decide, by decide,
    (repeated_calls_stable ⟨[("PANGO_LIB_DIR", "/opt/lib")], ""⟩
      [.sysconf, .lib, .sysconf, .lib]).2.2.1 Accessor.lib (Accessor.lib, some "/opt/lib")
      (by decide) (Accessor.lib, (Accessor.lib.call ⟨[("PANGO_LIB_DIR", "/opt/lib")], ""⟩).1)
      (by decide) rfl⟩

/-- C10: each accessor depends on its own variable only.  Two process states whose
environments give the same lookup result for `PANGO_SYSCONF_DIR` get the same return value
and the same appended text from `pango_get_sysconf_subdirectory`, whatever else differs;
likewise for `PANGO_LIB_DIR` and `pango_get_lib_subdirectory`. -/
theorem accessor_own_variable_only (st1 st2 : Process) :
    (getenv st1.environ "PANGO_SYSCONF_DIR" = getenv st2.environ "PANGO_SYSCONF_DIR" →
        (pango_get_sysconf_subdirectory st1).1 = (pango_get_sysconf_subdirectory st2).1
          ∧ ∃ t, (pango_get_sysconf_subdirectory st1).2.stderr = st1.stderr ++ t
              ∧ (pango_get_sysconf_subdirectory st2).2.stderr = st2.stderr ++ t)
      ∧ (getenv st1.environ "PANGO_LIB_DIR" = getenv st2.environ "PANGO_LIB_DIR" →
        (pango_get_lib_subdirectory st1).1 = (pango_get_lib_subdirectory st2).1
          ∧ ∃ t, (pango_get_lib_subdirectory st1).2.stderr = st1.stderr ++ t
              ∧ (pango_get_lib_subdirectory st2).2.stderr = st2.stderr ++ t) := by
  constructor
  · intro h
    refine ⟨by rw [sysconf_result, sysconf_result, h], _, sysconf_stderr st1, ?_⟩
    rw [sysconf_stderr, h]
  · intro h
    refine ⟨by rw [lib_result, lib_result, h], _, lib_stderr st1, ?_⟩
    rw [lib_stderr, h]

/-- C10 on two environments that agree on `PANGO_SYSCONF_DIR` and differ on
`PANGO_LIB_DIR` and elsewhere: the sysconf accessor returns the same value in both. -/
theorem accessor_own_variable_only_witness :
    getenv [("PANGO_LIB_DIR", "/a"), ("PANGO_SYSCONF_DIR", "/c")] "PANGO_SYSCONF_DIR"
        = getenv [("PANGO_SYSCONF_DIR", "/c"), ("HOME", "/h")] "PANGO_SYSCONF_DIR"
      ∧ (pango_get_sysconf_subdirectory
            ⟨[("PANGO_LIB_DIR", "/a"), ("PANGO_SYSCONF_DIR", "/c")], "log\n"⟩).1
          = (pango_get_sysconf_subdirectory
            ⟨[("PANGO_SYSCONF_DIR", "/c"), ("HOME", "/h")], ""⟩).1 :=
  ⟨by decide,
    ((accessor_own_variable_only
      ⟨[("PANGO_LIB_DIR", "/a"), ("PANGO_SYSCONF_DIR", "/c")], "log\n"⟩
      ⟨[("PANGO_SYSCONF_DIR", "/c"), ("HOME", "/h")], ""⟩).1 (by decide)).1⟩

end Pangohack
